import Mathlib

/-!
Shallow embedding of the inventory-backend anomaly-detection core.

The definitions below are translated from the JavaScript source of the
repository: the Mongoose schemas in src/models, the stock-mutation route
and the EnhancedAIAnomalyDetector class in src/index.js.  JavaScript
numbers that only ever hold integer stock counts and epoch-millisecond
timestamps are embedded as Int; prices and confidence scores, where the
source divides, are embedded as Rat.  Mongo queries become decidable
predicates over explicit record lists.
-/

namespace Inv

/-- Transaction type enum from src/models/Transaction.js. -/
inductive TxType
  | sale | restock | adjustment | expiry | damage | purchase
deriving DecidableEq

/-- Transaction record (src/models/Transaction.js): signed quantity delta,
previous and new quantity, actor id, creation time in ms since epoch. -/
structure Transaction where
  productId : Nat
  txType : TxType
  quantity : Int
  previousQuantity : Int
  newQuantity : Int
  userId : String
  createdAt : Int
deriving DecidableEq

/-- Anomaly type values produced anywhere in src/index.js.  Note that the
schema enum in src/models/Anomaly.js admits only the first eight; see
`schemaAnomalyTypes`. -/
inductive AnomalyType
  | low_stock | unusual_pattern | expiry_warning | high_variance
  | stock_discrepancy | potential_theft | unauthorized_access_pattern
  | security | inventory_shrinkage | organized_theft_pattern
deriving DecidableEq

/-- Severity enum from src/models/Anomaly.js. -/
inductive Severity
  | low | medium | high | critical
deriving DecidableEq

/-- An anomaly candidate as pushed by the detectors into the in-memory
batch (productId, type, severity, aiConfidence).  The free-text
description and metadata fields carry no logic and are not modelled. -/
structure Candidate where
  productId : Option Nat
  ctype : AnomalyType
  severity : Severity
  aiConfidence : Rat
deriving DecidableEq

/-- A persisted anomaly as the detectors query it back from the store. -/
structure StoredAnomaly where
  productId : Option Nat
  atype : AnomalyType
  severity : Severity
  resolved : Bool
  createdAt : Int
deriving DecidableEq

/-- Alert type enum from src/models/Alert.js. -/
inductive AlertType
  | low_stock | expiry | anomaly | system | security
deriving DecidableEq

/-- A persisted alert, restricted to the fields the dedup query reads. -/
structure StoredAlert where
  alertType : AlertType
  productId : Option Nat
  createdAt : Int
deriving DecidableEq

/-- An alert synthesized by generateTheftAlerts (type is always
security; we keep the source anomaly's type for reference). -/
structure NewAlert where
  alertType : AlertType
  productId : Option Nat
  sourceType : AnomalyType
deriving DecidableEq

/-- Product record from src/models/Product.js, restricted to the fields
the detectors and the stock route read. -/
structure Product where
  pid : Nat
  quantity : Int
  price : Rat
  expiryDate : Option Int
  minimumStock : Int
deriving DecidableEq

/-- The store state a detection pass reads: products, the transaction
ledger, persisted anomalies and alerts, and the current clock (ms). -/
structure DB where
  products : List Product
  transactions : List Transaction
  anomalies : List StoredAnomaly
  alerts : List StoredAlert
  now : Int
deriving DecidableEq

def msPerHour : Int := 3600000

def msPerDay : Int := 86400000

/-- Math.ceil of an integer quotient a/b for b > 0. -/
def ceilDiv (a b : Int) : Int := -((-a).fdiv b)

/-! ## Stock Mutator (POST /api/products/:id/stock, src/index.js lines 584-623) -/

/-- Signed delta from line 595: types sale, expiry and damage negate the
absolute value of the requested quantity, all others keep it positive. -/
def signedDelta (ty : TxType) (q : Int) : Int :=
  if ty = TxType.sale ∨ ty = TxType.expiry ∨ ty = TxType.damage
  then -(q.natAbs : Int) else (q.natAbs : Int)

/-- The stock-change operation for a request whose type already parsed:
builds the transaction record and the updated product (lines 594-613). -/
def applyStockChange (p : Product) (ty : TxType) (q : Int) (u : String) (now : Int) :
    Transaction × Product :=
  let previousQuantity := p.quantity
  let quantityChange := signedDelta ty q
  let newQuantity := max 0 (previousQuantity + quantityChange)
  (⟨p.pid, ty, quantityChange, previousQuantity, newQuantity, u, now⟩,
   { p with quantity := newQuantity })

/-- The transaction-type strings the Transaction schema enum accepts
(src/models/Transaction.js lines 8-16). -/
def parseTxType (s : String) : Option TxType :=
  if s = "sale" then some TxType.sale
  else if s = "restock" then some TxType.restock
  else if s = "adjustment" then some TxType.adjustment
  else if s = "expiry" then some TxType.expiry
  else if s = "damage" then some TxType.damage
  else if s = "purchase" then some TxType.purchase
  else none

/-- The full stock route: no validator middleware is mounted on it in
src/index.js, so the only rejection point is transaction.save, whose
schema enum refuses an unknown type string before the product is
written.  A none result means a rejected request with no writes. -/
def stockRoute (p : Product) (typeStr : String) (q : Int) (u : String) (now : Int) :
    Option (Transaction × Product) :=
  match parseTxType typeStr with
  | none => none
  | some ty => some (applyStockChange p ty q u now)

/-! ## Ledger queries -/

/-- Transaction.find with productId and createdAt at least since. -/
def txSince (db : DB) (pid : Nat) (since : Int) : List Transaction :=
  db.transactions.filter (fun t => decide (t.productId = pid ∧ since ≤ t.createdAt))

def insertByTime (t : Transaction) : List Transaction → List Transaction
  | [] => [t]
  | u :: us => if t.createdAt ≤ u.createdAt then t :: u :: us else u :: insertByTime t us

/-- Ascending sort on createdAt, modelling .sort with createdAt 1. -/
def sortByTime : List Transaction → List Transaction
  | [] => []
  | t :: ts => insertByTime t (sortByTime ts)

/-- The last 30 days of a product's transactions, ascending (detectPotentialTheft). -/
def tx30 (p : Product) (db : DB) : List Transaction :=
  sortByTime (txSince db p.pid (db.now - 30 * msPerDay))

/-- The last 90 days of a product's transactions, ascending (detectShrinkagePatterns). -/
def tx90 (p : Product) (db : DB) : List Transaction :=
  sortByTime (txSince db p.pid (db.now - 90 * msPerDay))

/-- The last 7 days of a product's transactions, unsorted (detectUnauthorizedAccess). -/
def tx7 (p : Product) (db : DB) : List Transaction :=
  txSince db p.pid (db.now - 7 * msPerDay)

/-! ## Low-stock and expiry detectors (src/index.js lines 87-145) -/

/-- Anomaly.findOne for an unresolved anomaly of the given type. -/
def existingUnresolved (db : DB) (pid : Nat) (ty : AnomalyType) : Prop :=
  ∃ a ∈ db.anomalies, a.productId = some pid ∧ a.atype = ty ∧ a.resolved = false

instance (db : DB) (pid : Nat) (ty : AnomalyType) : Decidable (existingUnresolved db pid ty) := by
  unfold existingUnresolved; infer_instance

def detectLowStock (p : Product) (db : DB) : List Candidate :=
  if p.quantity ≤ p.minimumStock then
    if existingUnresolved db p.pid AnomalyType.low_stock then []
    else
      [⟨some p.pid, AnomalyType.low_stock,
        (if p.quantity = 0 then Severity.critical else Severity.high), mkRat 95 100⟩]
  else []

/-- Days until expiry, line 118: Math.ceil of the ms difference over a day. -/
def daysUntilExpiry (expiry now : Int) : Int := ceilDiv (expiry - now) msPerDay

def detectExpiryWarnings (p : Product) (db : DB) : List Candidate :=
  match p.expiryDate with
  | none => []
  | some e =>
    let d := daysUntilExpiry e db.now
    if d ≤ 30 ∧ 0 < d then
      if existingUnresolved db p.pid AnomalyType.expiry_warning then []
      else
        [⟨some p.pid, AnomalyType.expiry_warning,
          (if d ≤ 7 then Severity.high else Severity.medium), mkRat 90 100⟩]
    else []

/-! ## Potential-theft detector (src/index.js lines 148-245) -/

/-- One unexplained-loss entry: its timestamp and positive magnitude. -/
structure Loss where
  date : Int
  discrepancy : Int
deriving DecidableEq

/-- The ledger walk of lines 163-184: carry calculatedStock, add each
signed delta, record a loss when the recorded newQuantity is more than
2 below the recomputation, then resynchronize to the recorded value. -/
def walkLosses : Int → List Transaction → List Loss
  | _, [] => []
  | calcStock, t :: ts =>
    let c := calcStock + t.quantity
    (if 0 < (c - t.newQuantity).natAbs ∧ t.newQuantity - c < -2
     then [⟨t.createdAt, ((t.newQuantity - c).natAbs : Int)⟩] else [])
    ++ walkLosses t.newQuantity ts

/-- unexplainedLosses of lines 160-205: the ledger walk seeded from the
first transaction's previousQuantity, plus the current-discrepancy
entry comparing live quantity to the last transaction's newQuantity. -/
def unexplainedLosses (p : Product) (db : DB) : List Loss :=
  match tx30 p db with
  | [] => []
  | t0 :: rest =>
    let txs := t0 :: rest
    let ledgerLosses := walkLosses t0.previousQuantity txs
    let last := txs.getLast (List.cons_ne_nil t0 rest)
    ledgerLosses ++
      (if p.quantity < last.newQuantity ∧ 2 < last.newQuantity - p.quantity
       then [⟨db.now, last.newQuantity - p.quantity⟩] else [])

/-- totalLoss of line 210: the sum of all loss magnitudes. -/
def totalLoss (p : Product) (db : DB) : Int :=
  (unexplainedLosses p db).foldl (fun s l => s + l.discrepancy) 0

/-- calculateTheftConfidence (lines 436-454). -/
def calculateTheftConfidence (losses : List Loss) (tl : Int) (now : Int) : Rat :=
  let c0 : Rat := mkRat 1 2
  let c1 := if 2 < losses.length then c0 + mkRat 1 10 else c0
  let c2 := if 5 < losses.length then c1 + mkRat 1 10 else c1
  let c3 := if 10 < tl then c2 + mkRat 1 10 else c2
  let c4 := if 25 < tl then c3 + mkRat 1 10 else c3
  let recent := losses.filter (fun l => decide (now - 7 * msPerDay < l.date))
  let c5 := if 0 < recent.length then c4 + mkRat 1 10 else c4
  min c5 (mkRat 95 100)

/-- Anomaly.findOne of lines 216-221: unresolved potential_theft for the
product created within the last 24 hours. -/
def existingUnresolvedTheft (p : Product) (db : DB) : Prop :=
  ∃ a ∈ db.anomalies, a.productId = some p.pid ∧ a.atype = AnomalyType.potential_theft ∧
    a.resolved = false ∧ db.now - msPerDay ≤ a.createdAt

instance (p : Product) (db : DB) : Decidable (existingUnresolvedTheft p db) := by
  unfold existingUnresolvedTheft; infer_instance

def detectPotentialTheft (p : Product) (db : DB) : List Candidate :=
  match tx30 p db with
  | [] => []
  | _ :: _ =>
    let losses := unexplainedLosses p db
    if 0 < losses.length then
      let tl := totalLoss p db
      let lossValue := (tl : Rat) * p.price
      if existingUnresolvedTheft p db ∧ 3 < tl then
        [⟨some p.pid, AnomalyType.potential_theft,
          (if 500 < lossValue then Severity.critical
           else if 10 < tl then Severity.high else Severity.medium),
          calculateTheftConfidence losses tl db.now⟩]
      else []
    else []

/-- Number of Anomaly.findOne store lookups detectPotentialTheft performs:
the code returns at line 157 before its lookup when the 30-day window is
empty, and only reaches findOne when the loss list is nonempty. -/
def theftAnomalyLookups (p : Product) (db : DB) : Nat :=
  match tx30 p db with
  | [] => 0
  | _ :: _ => if 0 < (unexplainedLosses p db).length then 1 else 0

/-! ## Shrinkage detector (src/index.js lines 248-300) -/

def totalSales90 (p : Product) (db : DB) : Int :=
  (((tx90 p db).filter (fun t => decide (t.txType = TxType.sale))).map
    (fun t => (t.quantity.natAbs : Int))).sum

def totalRestocks90 (p : Product) (db : DB) : Int :=
  (((tx90 p db).filter
      (fun t => decide (t.txType = TxType.restock ∨ t.txType = TxType.purchase))).map
    (fun t => (t.quantity.natAbs : Int))).sum

/-- Line 265: first transaction's previousQuantity, defaulting to 0. -/
def firstPrevQty (p : Product) (db : DB) : Int :=
  match tx90 p db with
  | [] => 0
  | t :: _ => t.previousQuantity

def expectedCurrentStock (p : Product) (db : DB) : Int :=
  firstPrevQty p db + totalRestocks90 p db - totalSales90 p db

def shrinkageOf (p : Product) (db : DB) : Int :=
  expectedCurrentStock p db - p.quantity

/-- Anomaly.findOne of lines 271-276: inventory_shrinkage for the product
within the last 7 days; the resolved filter is commented out in the
source, so resolution state is ignored. -/
def recentShrinkageAnomaly (p : Product) (db : DB) : Prop :=
  ∃ a ∈ db.anomalies, a.productId = some p.pid ∧
    a.atype = AnomalyType.inventory_shrinkage ∧ db.now - 7 * msPerDay ≤ a.createdAt

instance (p : Product) (db : DB) : Decidable (recentShrinkageAnomaly p db) := by
  unfold recentShrinkageAnomaly; infer_instance

def detectShrinkagePatterns (p : Product) (db : DB) : List Candidate :=
  if (tx90 p db).length < 10 then []
  else
    let shrinkage := shrinkageOf p db
    let shrinkageRate : Rat := Rat.divInt shrinkage 90
    if mkRat 1 2 < shrinkageRate ∧ 5 < shrinkage then
      if recentShrinkageAnomaly p db then []
      else
        [⟨some p.pid, AnomalyType.inventory_shrinkage,
          (if 2 < shrinkageRate then Severity.high else Severity.medium), mkRat 80 100⟩]
    else []

/-! ## Unauthorized-access detector (src/index.js lines 303-374) -/

/-- Hour of day of an epoch-ms timestamp; Date.prototype.getHours is
timezone dependent, modelled here in UTC. -/
def getHours (ms : Int) : Int := (ms.fdiv msPerHour).emod 24

/-- Hours 23 and 0-5: the indices the code sums out of hourlyActivity at
lines 325-326. -/
def nightHours : List Int := [23, 0, 1, 2, 3, 4, 5]

/-- Total after-hours activity: the sum of the hourly buckets at the
night indices equals the count of window transactions whose hour lies in
that set. -/
def totalNightActivity (p : Product) (db : DB) : Nat :=
  (tx7 p db).countP (fun t => decide (getHours t.createdAt ∈ nightHours))

/-- Line 320: transaction.userId falls back to unknown when falsy. -/
def effectiveUser (t : Transaction) : String :=
  if t.userId = "" then "unknown" else t.userId

def userTxCount (p : Product) (db : DB) (u : String) : Nat :=
  (tx7 p db).countP (fun t => decide (effectiveUser t = u))

/-- The keys of the userActivity map built at lines 316-322. -/
def activeUsers (p : Product) (db : DB) : List String :=
  ((tx7 p db).map effectiveUser).dedup

/-- The actors flagged at lines 337-346: more than 10 transactions in the
window and not the system actor. -/
def excessiveUsers (p : Product) (db : DB) : List String :=
  (activeUsers p db).filter (fun u => decide (10 < userTxCount p db u ∧ u ≠ "system"))

/-- Anomaly.findOne of lines 349-354: unauthorized_access_pattern for the
product within the last 24 hours, resolution state ignored (the resolved
filter is commented out in the source). -/
def recentAccessAnomaly (p : Product) (db : DB) : Prop :=
  ∃ a ∈ db.anomalies, a.productId = some p.pid ∧
    a.atype = AnomalyType.unauthorized_access_pattern ∧ db.now - msPerDay ≤ a.createdAt

instance (p : Product) (db : DB) : Decidable (recentAccessAnomaly p db) := by
  unfold recentAccessAnomaly; infer_instance

def detectUnauthorizedAccess (p : Product) (db : DB) : List Candidate :=
  let afterHours := 2 < totalNightActivity p db
  let patternCount := (if afterHours then 1 else 0) + (excessiveUsers p db).length
  if 0 < patternCount then
    if recentAccessAnomaly p db then []
    else
      [⟨some p.pid, AnomalyType.unauthorized_access_pattern,
        (if afterHours then Severity.high else Severity.medium), mkRat 70 100⟩]
  else []

/-! ## System-wide theft pattern (src/index.js lines 377-433) -/

def detectSystemwideTheftPatterns (db : DB) : List Candidate :=
  let highValue := db.products.filter (fun p => decide (100 < p.price))
  let suspicious := highValue.filterMap (fun p =>
    let recent := txSince db p.pid (db.now - msPerDay)
    match recent.getLast? with
    | none => none
    | some last =>
      if p.quantity < last.newQuantity then
        let d := last.newQuantity - p.quantity
        if 0 < d then some (p.pid, d, (d : Rat) * p.price) else none
      else none)
  if 3 ≤ suspicious.length then
    [⟨none, AnomalyType.organized_theft_pattern, Severity.critical, mkRat 85 100⟩]
  else []

/-! ## Detection pass and Dedup/Persistence Gate (lines 51-84) -/

/-- The per-product detector pipeline of lines 59-69 (detectUnusualPatterns
is commented out in the source). -/
def detectProductAnomalies (p : Product) (db : DB) : List Candidate :=
  detectLowStock p db ++ detectExpiryWarnings p db ++ detectPotentialTheft p db ++
    detectShrinkagePatterns p db ++ detectUnauthorizedAccess p db

/-- The full candidate batch of one detection pass: every product's
pipeline followed by the cross-product pass. -/
def detectAnomaliesBatch (db : DB) : List Candidate :=
  ((db.products.map (fun p => detectProductAnomalies p db)).flatten) ++
    detectSystemwideTheftPatterns db

/-- The anomaly type strings in the schema enum of src/models/Anomaly.js
lines 2-17: inventory_shrinkage and organized_theft_pattern are absent. -/
def schemaAnomalyTypes : List AnomalyType :=
  [AnomalyType.low_stock, AnomalyType.unusual_pattern, AnomalyType.expiry_warning,
   AnomalyType.high_variance, AnomalyType.stock_discrepancy, AnomalyType.potential_theft,
   AnomalyType.unauthorized_access_pattern, AnomalyType.security]

/-- Mongoose document validation for one anomaly candidate: productId is
declared required and type must lie in the schema enum.  The severity and
confidence fields of every candidate built above already satisfy their
schema constraints. -/
def validAnomalyDoc (c : Candidate) : Prop :=
  c.productId ≠ none ∧ c.ctype ∈ schemaAnomalyTypes

instance (c : Candidate) : Decidable (validAnomalyDoc c) := by
  unfold validAnomalyDoc; infer_instance

/-- Anomaly.insertMany validates every document first and, in its default
ordered mode, inserts nothing when any document fails validation. -/
def insertManySucceeds (batch : List Candidate) : Prop :=
  ∀ c ∈ batch, validAnomalyDoc c

instance (batch : List Candidate) : Decidable (insertManySucceeds batch) := by
  unfold insertManySucceeds; infer_instance

/-- A candidate as stored by a successful insert at time now. -/
def toStored (now : Int) (c : Candidate) : StoredAnomaly :=
  ⟨c.productId, c.ctype, c.severity, false, now⟩

/-- The persistence effect of one pass: append the whole batch when it
validates, otherwise leave the store unchanged (the insertMany failure is
swallowed by the top-level catch of detectAnomalies). -/
def persistBatch (db : DB) (batch : List Candidate) : DB :=
  if insertManySucceeds batch
  then { db with anomalies := db.anomalies ++ batch.map (toStored db.now) }
  else db

/-- One full detection pass including persistence. -/
def runDetectionPass (db : DB) : DB :=
  persistBatch db (detectAnomaliesBatch db)

/-! ## Alert Generator (generateTheftAlerts, src/index.js lines 457-501) -/

/-- The anomaly types the find at lines 459-462 selects; the resolved
filter is commented out in the source. -/
def alertableTypes : List AnomalyType :=
  [AnomalyType.low_stock, AnomalyType.unusual_pattern, AnomalyType.expiry_warning,
   AnomalyType.high_variance, AnomalyType.stock_discrepancy, AnomalyType.potential_theft,
   AnomalyType.unauthorized_access_pattern, AnomalyType.security]

/-- Alert.findOne of lines 467-471: a security alert for the same product
created within the last 2 hours. -/
def recentSecurityAlert (db : DB) (pid : Option Nat) : Prop :=
  ∃ al ∈ db.alerts, al.alertType = AlertType.security ∧ al.productId = pid ∧
    db.now - 2 * msPerHour ≤ al.createdAt

instance (db : DB) (pid : Option Nat) : Decidable (recentSecurityAlert db pid) := by
  unfold recentSecurityAlert; infer_instance

def generateTheftAlerts (db : DB) : List NewAlert :=
  (db.anomalies.filter (fun a => decide (a.atype ∈ alertableTypes))).filterMap
    (fun a =>
      if recentSecurityAlert db a.productId then none
      else some ⟨AlertType.security, a.productId, a.atype⟩)

/-! ## Counting helpers and example stores -/

/-- Number of unresolved stored anomalies of one (product, type). -/
def countUnresolved (db : DB) (pid : Nat) (ty : AnomalyType) : Nat :=
  db.anomalies.countP
    (fun a => decide (a.productId = some pid ∧ a.atype = ty ∧ a.resolved = false))

/-- Whether a candidate targets one (product, type). -/
def candMatch (pid : Nat) (ty : AnomalyType) (c : Candidate) : Bool :=
  decide (c.productId = some pid ∧ c.ctype = ty)

/-- Rebuild a store with every anomaly's resolved flag recomputed by f,
leaving every other field and collection unchanged. -/
def setResolved (db : DB) (f : StoredAnomaly → Bool) : DB :=
  { db with anomalies := db.anomalies.map (fun a => { a with resolved := f a }) }

/-- A reference clock: noon of day 1000 after the epoch. -/
def exNow : Int := 1000 * msPerDay + 12 * msPerHour

/-- A zero-delta adjustment transaction for product 1 recorded k seconds
before exNow, with ledger level 100. -/
def exShrinkTx (k : Nat) : Transaction :=
  ⟨1, TxType.adjustment, 0, 100, 100, "system", exNow - k * 1000⟩

/-- Product 1: live quantity 10 against a ledger level of 100. -/
def exShrinkProduct : Product := ⟨1, 10, 50, none, 0⟩

/-- A store whose detection pass emits exactly one inventory_shrinkage
candidate: ten recent transactions at level 100 and a live quantity of
10 give shrinkage 90 over 90 days. -/
def exShrinkDB : DB :=
  ⟨[exShrinkProduct], (List.range 10).map (fun k => exShrinkTx (k + 1)), [], [], exNow⟩

/-- A store with two unresolved anomalies for product 1 and no alerts. -/
def exMultiAnomalyDB : DB :=
  ⟨[], [],
   [⟨some 1, AnomalyType.potential_theft, Severity.high, false, exNow⟩,
    ⟨some 1, AnomalyType.low_stock, Severity.high, false, exNow⟩],
   [], exNow⟩

/-- A store whose only anomaly is already resolved. -/
def exResolvedDB : DB :=
  ⟨[], [], [⟨some 1, AnomalyType.low_stock, Severity.high, true, exNow⟩], [], exNow⟩

/-- A store with an unresolved anomaly for product 1 and a security alert
for product 1 created at the current instant. -/
def exGuardedDB : DB :=
  ⟨[], [], [⟨some 1, AnomalyType.low_stock, Severity.high, false, exNow⟩],
   [⟨AlertType.security, some 1, exNow⟩], exNow⟩

/-- A small product for stock-mutation witnesses. -/
def exStockProduct : Product := ⟨1, 10, 2, none, 3⟩

/-- A dormant product: large live quantity, and no transactions exist. -/
def exDormantProduct : Product := ⟨9, 1000, 3, none, 0⟩

def exDormantDB : DB := ⟨[exDormantProduct], [], [], [], exNow⟩

/-- A product at quantity zero under its minimum stock threshold. -/
def exEmptyShelfProduct : Product := ⟨2, 0, 5, none, 10⟩

def exEmptyShelfDB : DB := ⟨[exEmptyShelfProduct], [], [], [], exNow⟩

/-! ## Theorems -/

/-- C3: for every stock-change call with a positive integer quantity, the
signed delta is negative exactly when the type is sale, expiry or damage;
the recorded transaction's newQuantity is max 0 (previousQuantity plus
the signed delta); and the product's stored quantity is updated to that
newQuantity. -/
theorem c3_stock_change (p : Product) (ty : TxType) (q : Int) (u : String) (now : Int)
    (h : 0 < q) :
    ((applyStockChange p ty q u now).1.quantity < 0 ↔
      (ty = TxType.sale ∨ ty = TxType.expiry ∨ ty = TxType.damage)) ∧
    (applyStockChange p ty q u now).1.newQuantity =
      max 0 ((applyStockChange p ty q u now).1.previousQuantity +
        (applyStockChange p ty q u now).1.quantity) ∧
    (applyStockChange p ty q u now).2.quantity =
      (applyStockChange p ty q u now).1.newQuantity := by
  refine ⟨?_, rfl, rfl⟩
  show signedDelta ty q < 0 ↔ _
  unfold signedDelta
  by_cases hc : ty = TxType.sale ∨ ty = TxType.expiry ∨ ty = TxType.damage
  · rw [if_pos hc]
    exact iff_of_true (by omega) hc
  · rw [if_neg hc]
    exact iff_of_false (by omega) hc

/-- Witness for c3_stock_change at a concrete sale of 5 units. -/
theorem c3_stock_change_witness :
    ((0:Int) < 5) ∧
    (((applyStockChange exStockProduct TxType.sale 5 "u" 0).1.quantity < 0 ↔
      (TxType.sale = TxType.sale ∨ TxType.sale = TxType.expiry ∨
        TxType.sale = TxType.damage)) ∧
    (applyStockChange exStockProduct TxType.sale 5 "u" 0).1.newQuantity =
      max 0 ((applyStockChange exStockProduct TxType.sale 5 "u" 0).1.previousQuantity +
        (applyStockChange exStockProduct TxType.sale 5 "u" 0).1.quantity) ∧
    (applyStockChange exStockProduct TxType.sale 5 "u" 0).2.quantity =
      (applyStockChange exStockProduct TxType.sale 5 "u" 0).1.newQuantity) :=
  ⟨by decide, c3_stock_change exStockProduct TxType.sale 5 "u" 0 (by decide)⟩

/-- C6 counterexample: a stock-change request with quantity minus 5 — not a
positive integer — is not rejected: the route records a transaction with
delta plus 5 and mutates the product from quantity 10 to 15. -/
theorem c6_counterexample :
    stockRoute exStockProduct "restock" (-5) "u" 0 =
      some (⟨1, TxType.restock, 5, 10, 15, "u", 0⟩, ⟨1, 15, 2, none, 3⟩) := by
  decide

/-- C6 as amended: a request whose type string is outside the six schema
transaction types is rejected at the transaction insert before any write:
no transaction is stored and the product is unchanged (the route returns
none, producing no effect).  Quantity is not validated. -/
theorem c6_amended (p : Product) (s : String) (q : Int) (u : String) (now : Int)
    (h : parseTxType s = none) : stockRoute p s q u now = none := by
  unfold stockRoute
  rw [h]

/-- Witness for c6_amended at the type string theft. -/
theorem c6_amended_witness :
    parseTxType "theft" = none ∧
      stockRoute exStockProduct "theft" 7 "u" 0 = none :=
  ⟨by decide, c6_amended exStockProduct "theft" 7 "u" 0 (by decide)⟩

theorem unexplainedLosses_eq_nil_of_tx30 (p : Product) (db : DB) (h : tx30 p db = []) :
    unexplainedLosses p db = [] := by
  unfold unexplainedLosses
  rw [h]

theorem totalLoss_eq_zero_of_losses (p : Product) (db : DB)
    (h : unexplainedLosses p db = []) : totalLoss p db = 0 := by
  unfold totalLoss
  rw [h]
  rfl

/-- C2: the potential-theft detector emits an anomaly for a product if and
only if the computed totalLoss over the 30-day window exceeds 3 and an
unresolved potential_theft anomaly for the product created within the
last 24 hours already exists in the store; in particular, with no such
prior anomaly nothing is emitted regardless of the discrepancy. -/
theorem c2_potential_theft_iff (p : Product) (db : DB) :
    detectPotentialTheft p db ≠ [] ↔
      (3 < totalLoss p db ∧ existingUnresolvedTheft p db) := by
  unfold detectPotentialTheft
  cases htx : tx30 p db with
  | nil =>
    have hl : unexplainedLosses p db = [] := unexplainedLosses_eq_nil_of_tx30 p db htx
    have h0 : totalLoss p db = 0 := totalLoss_eq_zero_of_losses p db hl
    simp [h0]
  | cons t ts =>
    by_cases hL : 0 < (unexplainedLosses p db).length
    · rw [if_pos hL]
      by_cases hc : existingUnresolvedTheft p db ∧ 3 < totalLoss p db
      · rw [if_pos hc]
        exact iff_of_true (by simp) ⟨hc.2, hc.1⟩
      · rw [if_neg hc]
        exact iff_of_false (by simp) (fun hx => hc ⟨hx.2, hx.1⟩)
    · have hl : unexplainedLosses p db = [] := by
        cases he : unexplainedLosses p db with
        | nil => rfl
        | cons a as => rw [he] at hL; simp at hL
      have h0 : totalLoss p db = 0 := totalLoss_eq_zero_of_losses p db hl
      rw [if_neg hL]
      exact iff_of_false (by simp) (by simp [h0])

/-- C10: a product with zero transactions in the trailing 30 days is
invisible to the potential-theft detector: it emits nothing and performs
no anomaly-store lookup, no matter how far the live quantity diverges
from any earlier ledger state. -/
theorem c10_dormant_product (p : Product) (db : DB) (h : tx30 p db = []) :
    detectPotentialTheft p db = [] ∧ theftAnomalyLookups p db = 0 := by
  unfold detectPotentialTheft theftAnomalyLookups
  rw [h]
  exact ⟨rfl, rfl⟩

/-- Witness for c10_dormant_product: a product at live quantity 1000 with
an empty ledger. -/
theorem c10_dormant_product_witness :
    tx30 exDormantProduct exDormantDB = [] ∧
      (detectPotentialTheft exDormantProduct exDormantDB = [] ∧
        theftAnomalyLookups exDormantProduct exDormantDB = 0) :=
  ⟨by decide, c10_dormant_product exDormantProduct exDormantDB (by decide)⟩

/-- C7: the shrinkage detector emits an inventory_shrinkage anomaly for a
product exactly when the trailing-90-day window holds at least 10
transactions, the daily rate shrinkage/90 exceeds one half, the shrinkage
exceeds 5, and no inventory_shrinkage anomaly for the product was
recorded in the last 7 days regardless of its resolved state — where the
shrinkage is expectedCurrentStock minus the live quantity and
expectedCurrentStock is the first transaction's previousQuantity plus the
restock/purchase magnitudes minus the sale magnitudes.  In particular,
with fewer than 10 transactions it never emits. -/
theorem c7_shrinkage_iff (p : Product) (db : DB) :
    shrinkageOf p db =
      firstPrevQty p db + totalRestocks90 p db - totalSales90 p db - p.quantity ∧
    (detectShrinkagePatterns p db ≠ [] ↔
      (10 ≤ (tx90 p db).length ∧
        mkRat 1 2 < Rat.divInt (shrinkageOf p db) 90 ∧ 5 < shrinkageOf p db ∧
        ¬ recentShrinkageAnomaly p db)) := by
  refine ⟨rfl, ?_⟩
  unfold detectShrinkagePatterns
  by_cases hlen : (tx90 p db).length < 10
  · rw [if_pos hlen]
    exact iff_of_false (by simp) (fun hx => by omega)
  · rw [if_neg hlen]
    by_cases hcond : mkRat 1 2 < Rat.divInt (shrinkageOf p db) 90 ∧ 5 < shrinkageOf p db
    · rw [if_pos hcond]
      by_cases hrec : recentShrinkageAnomaly p db
      · rw [if_pos hrec]
        exact iff_of_false (by simp) (fun hx => hx.2.2.2 hrec)
      · rw [if_neg hrec]
        exact iff_of_true (by simp) ⟨by omega, hcond.1, hcond.2, hrec⟩
    · rw [if_neg hcond]
      exact iff_of_false (by simp) (fun hx => hcond ⟨hx.2.1, hx.2.2.1⟩)

/-- C8: over the trailing 7 days the unauthorized-access detector flags
after-hours access exactly when the count of transactions whose hour of
day lies in the set 23, 0-5 exceeds 2, flags excessive activity exactly
for the actors other than system with more than 10 window transactions,
and emits a single combined unauthorized_access_pattern anomaly exactly
when at least one pattern fired and no anomaly of that type for the
product was recorded in the last 24 hours regardless of resolved state. -/
theorem c8_access_iff (p : Product) (db : DB) :
    (detectUnauthorizedAccess p db ≠ [] ↔
      ((2 < totalNightActivity p db ∨ excessiveUsers p db ≠ []) ∧
        ¬ recentAccessAnomaly p db)) ∧
    (∀ u, u ∈ excessiveUsers p db ↔
      (u ∈ activeUsers p db ∧ 10 < userTxCount p db u ∧ u ≠ "system")) ∧
    (detectUnauthorizedAccess p db).length ≤ 1 := by
  refine ⟨?_, ?_, ?_⟩
  · unfold detectUnauthorizedAccess
    by_cases hpc : (0:Nat) <
        (if 2 < totalNightActivity p db then 1 else 0) + (excessiveUsers p db).length
    · rw [if_pos hpc]
      by_cases hrec : recentAccessAnomaly p db
      · rw [if_pos hrec]
        exact iff_of_false (by simp) (fun hx => hx.2 hrec)
      · rw [if_neg hrec]
        refine iff_of_true (by simp) ⟨?_, hrec⟩
        by_cases hn : 2 < totalNightActivity p db
        · exact Or.inl hn
        · rw [if_neg hn] at hpc
          refine Or.inr ?_
          intro hemp
          rw [hemp] at hpc
          simp at hpc
    · rw [if_neg hpc]
      refine iff_of_false (by simp) ?_
      intro hx
      rcases hx.1 with hn | hu
      · rw [if_pos hn] at hpc
        omega
      · have : 0 < (excessiveUsers p db).length := List.length_pos.mpr hu
        omega
  · intro u
    unfold excessiveUsers
    rw [List.mem_filter]
    simp only [decide_eq_true_eq]
  · unfold detectUnauthorizedAccess
    dsimp only
    split_ifs <;> simp

/-- C1: evaluation at a concrete failing store.  A detection pass over
exShrinkDB produces exactly one candidate, of type inventory_shrinkage,
yet the bulk write rejects the batch: the Anomaly schema enum omits
inventory_shrinkage (and organized_theft_pattern), so the candidate fails
document validation and insertMany persists nothing. -/
theorem c1_schema_rejects_shrinkage_batch :
    detectAnomaliesBatch exShrinkDB =
      [⟨some 1, AnomalyType.inventory_shrinkage, Severity.medium, mkRat 80 100⟩] ∧
    ¬ insertManySucceeds (detectAnomaliesBatch exShrinkDB) := by
  constructor
  · decide
  · decide

/-- C4 counterexample: from a store holding two unresolved anomalies for
product 1 and no prior alerts, one alert-generation pass synthesizes two
security alerts for product 1, both timestamped inside the same 2-hour
window — the claimed at-most-one-per-window invariant fails inside a
single pass. -/
theorem c4_counterexample :
    (∀ a ∈ exMultiAnomalyDB.anomalies, a.productId = some 1 ∧ a.resolved = false) ∧
    (∀ al ∈ generateTheftAlerts exMultiAnomalyDB,
      al.alertType = AlertType.security ∧ al.productId = some 1) ∧
    (generateTheftAlerts exMultiAnomalyDB).length = 2 := by
  refine ⟨by decide, by decide, by decide⟩

/-- C4 as amended: the dedup is only against previously stored alerts —
when a security alert for the product already exists in the store within
the last 2 hours, the pass creates no further alert for that product;
with no stored alert, one alert is created per qualifying anomaly, so one
pass can create several alerts for the same product. -/
theorem c4_amended (db : DB) (pid : Option Nat) (h : recentSecurityAlert db pid) :
    ∀ al ∈ generateTheftAlerts db, al.productId ≠ pid := by
  intro al hal
  unfold generateTheftAlerts at hal
  rw [List.mem_filterMap] at hal
  obtain ⟨a, _, heq⟩ := hal
  by_cases hr : recentSecurityAlert db a.productId
  · rw [if_pos hr] at heq
    exact absurd heq (by simp)
  · rw [if_neg hr] at heq
    have hal2 : al = ⟨AlertType.security, a.productId, a.atype⟩ :=
      (Option.some_inj.mp heq).symm
    intro hple
    rw [hal2] at hple
    have hpe : a.productId = pid := hple
    apply hr
    rw [hpe]
    exact h

/-- Witness for c4_amended: with a stored security alert for product 1 at
the current instant, the pass creates no alert for product 1. -/
theorem c4_amended_witness :
    recentSecurityAlert exGuardedDB (some 1) ∧
      ∀ al ∈ generateTheftAlerts exGuardedDB, al.productId ≠ some 1 :=
  ⟨by decide, c4_amended exGuardedDB (some 1) (by decide)⟩

/-- C5 counterexample: a store whose only anomaly is marked resolved still
yields a synthesized alert — the generator's query does not restrict to
unresolved anomalies (the resolved filter is commented out in the
source). -/
theorem c5_counterexample :
    (∀ a ∈ exResolvedDB.anomalies, a.resolved = true) ∧
    generateTheftAlerts exResolvedDB =
      [⟨AlertType.security, some 1, AnomalyType.low_stock⟩] := by
  refine ⟨by decide, by decide⟩

/-- C5 as amended: the alert generator considers every stored anomaly of
the eight alertable types regardless of resolved state — its output is
invariant under arbitrarily rewriting every anomaly's resolved flag. -/
theorem c5_amended (db : DB) (f : StoredAnomaly → Bool) :
    generateTheftAlerts (setResolved db f) = generateTheftAlerts db := by
  unfold generateTheftAlerts setResolved
  rw [List.filter_map, List.filterMap_map]
  rfl

theorem candMatch_eq_true {pid : Nat} {ty : AnomalyType} {c : Candidate} :
    candMatch pid ty c = true ↔ (c.productId = some pid ∧ c.ctype = ty) := by
  unfold candMatch
  exact decide_eq_true_iff

theorem countP_candMatch_zero {l : List Candidate} {pid : Nat} {ty : AnomalyType}
    (h : ∀ c ∈ l, ¬(c.productId = some pid ∧ c.ctype = ty)) :
    l.countP (candMatch pid ty) = 0 := by
  rw [List.countP_eq_zero]
  intro c hc
  rw [candMatch_eq_true]
  exact h c hc

theorem mem_detectLowStock {p : Product} {db : DB} {c : Candidate}
    (h : c ∈ detectLowStock p db) :
    c.productId = some p.pid ∧ c.ctype = AnomalyType.low_stock := by
  unfold detectLowStock at h
  repeat' (first | split at h | dsimp only at h)
  all_goals simp_all

theorem mem_detectExpiryWarnings {p : Product} {db : DB} {c : Candidate}
    (h : c ∈ detectExpiryWarnings p db) :
    c.productId = some p.pid ∧ c.ctype = AnomalyType.expiry_warning := by
  unfold detectExpiryWarnings at h
  repeat' (first | split at h | dsimp only at h)
  all_goals simp_all

theorem mem_detectPotentialTheft {p : Product} {db : DB} {c : Candidate}
    (h : c ∈ detectPotentialTheft p db) :
    c.productId = some p.pid ∧ c.ctype = AnomalyType.potential_theft := by
  unfold detectPotentialTheft at h
  repeat' (first | split at h | dsimp only at h)
  all_goals simp_all

theorem mem_detectShrinkagePatterns {p : Product} {db : DB} {c : Candidate}
    (h : c ∈ detectShrinkagePatterns p db) :
    c.productId = some p.pid ∧ c.ctype = AnomalyType.inventory_shrinkage := by
  unfold detectShrinkagePatterns at h
  repeat' (first | split at h | dsimp only at h)
  all_goals simp_all

theorem mem_detectUnauthorizedAccess {p : Product} {db : DB} {c : Candidate}
    (h : c ∈ detectUnauthorizedAccess p db) :
    c.productId = some p.pid ∧ c.ctype = AnomalyType.unauthorized_access_pattern := by
  unfold detectUnauthorizedAccess at h
  repeat' (first | split at h | dsimp only at h)
  all_goals simp_all

theorem mem_detectSystemwideTheftPatterns {db : DB} {c : Candidate}
    (h : c ∈ detectSystemwideTheftPatterns db) :
    c.productId = none ∧ c.ctype = AnomalyType.organized_theft_pattern := by
  unfold detectSystemwideTheftPatterns at h
  repeat' (first | split at h | dsimp only at h)
  all_goals simp_all

theorem length_detectLowStock_le_one (p : Product) (db : DB) :
    (detectLowStock p db).length ≤ 1 := by
  unfold detectLowStock
  repeat' (first | split | dsimp only)
  all_goals simp

theorem length_detectExpiryWarnings_le_one (p : Product) (db : DB) :
    (detectExpiryWarnings p db).length ≤ 1 := by
  unfold detectExpiryWarnings
  repeat' (first | split | dsimp only)
  all_goals simp

theorem detectLowStock_of_existing {p : Product} {db : DB}
    (h : existingUnresolved db p.pid AnomalyType.low_stock) :
    detectLowStock p db = [] := by
  unfold detectLowStock
  split_ifs with hA
  · rfl
  · rfl

theorem detectExpiryWarnings_of_existing {p : Product} {db : DB}
    (h : existingUnresolved db p.pid AnomalyType.expiry_warning) :
    detectExpiryWarnings p db = [] := by
  unfold detectExpiryWarnings
  split
  · rfl
  · dsimp only
    split_ifs with hA
    · rfl
    · rfl

/-- Candidates in a product's pipeline that target one (product, type)
with type low_stock or expiry_warning: there is at most one. -/
theorem countP_pipeline_le_one (p : Product) (db : DB) (pid : Nat) (ty : AnomalyType)
    (hty : ty = AnomalyType.low_stock ∨ ty = AnomalyType.expiry_warning) :
    (detectProductAnomalies p db).countP (candMatch pid ty) ≤ 1 := by
  unfold detectProductAnomalies
  rw [List.countP_append, List.countP_append, List.countP_append, List.countP_append]
  have hth : (detectPotentialTheft p db).countP (candMatch pid ty) = 0 := by
    refine countP_candMatch_zero (fun c hc hx => ?_)
    rcases mem_detectPotentialTheft hc with ⟨_, hcty⟩
    rcases hty with h | h <;> rw [h] at hx <;> rw [hcty] at hx <;> simp at hx
  have hsh : (detectShrinkagePatterns p db).countP (candMatch pid ty) = 0 := by
    refine countP_candMatch_zero (fun c hc hx => ?_)
    rcases mem_detectShrinkagePatterns hc with ⟨_, hcty⟩
    rcases hty with h | h <;> rw [h] at hx <;> rw [hcty] at hx <;> simp at hx
  have hac : (detectUnauthorizedAccess p db).countP (candMatch pid ty) = 0 := by
    refine countP_candMatch_zero (fun c hc hx => ?_)
    rcases mem_detectUnauthorizedAccess hc with ⟨_, hcty⟩
    rcases hty with h | h <;> rw [h] at hx <;> rw [hcty] at hx <;> simp at hx
  rcases hty with h | h
  · have hex : (detectExpiryWarnings p db).countP (candMatch pid ty) = 0 := by
      refine countP_candMatch_zero (fun c hc hx => ?_)
      rcases mem_detectExpiryWarnings hc with ⟨_, hcty⟩
      rw [h] at hx
      rw [hcty] at hx
      simp at hx
    have hls : (detectLowStock p db).countP (candMatch pid ty) ≤ 1 :=
      le_trans (List.countP_le_length _) (length_detectLowStock_le_one p db)
    omega
  · have hls : (detectLowStock p db).countP (candMatch pid ty) = 0 := by
      refine countP_candMatch_zero (fun c hc hx => ?_)
      rcases mem_detectLowStock hc with ⟨_, hcty⟩
      rw [h] at hx
      rw [hcty] at hx
      simp at hx
    have hex : (detectExpiryWarnings p db).countP (candMatch pid ty) ≤ 1 :=
      le_trans (List.countP_le_length _) (length_detectExpiryWarnings_le_one p db)
    omega

/-- A pipeline for a product with a different id contributes nothing to
the count for pid. -/
theorem countP_pipeline_ne (p : Product) (db : DB) (pid : Nat) (ty : AnomalyType)
    (h : p.pid ≠ pid) :
    (detectProductAnomalies p db).countP (candMatch pid ty) = 0 := by
  refine countP_candMatch_zero (fun c hc hx => ?_)
  have hcp : c.productId = some p.pid := by
    unfold detectProductAnomalies at hc
    rw [List.mem_append, List.mem_append, List.mem_append, List.mem_append] at hc
    rcases hc with ((((h1 | h2) | h3) | h4) | h5)
    · exact (mem_detectLowStock h1).1
    · exact (mem_detectExpiryWarnings h2).1
    · exact (mem_detectPotentialTheft h3).1
    · exact (mem_detectShrinkagePatterns h4).1
    · exact (mem_detectUnauthorizedAccess h5).1
  rw [hcp] at hx
  exact h (Option.some_inj.mp hx.1)

/-- With an unresolved stored anomaly of the type already present, the
pipeline emits no further candidate of that (product, type) for
low_stock or expiry_warning. -/
theorem countP_pipeline_existing (p : Product) (db : DB) (pid : Nat) (ty : AnomalyType)
    (hty : ty = AnomalyType.low_stock ∨ ty = AnomalyType.expiry_warning)
    (hex : existingUnresolved db pid ty) :
    (detectProductAnomalies p db).countP (candMatch pid ty) = 0 := by
  by_cases hp : p.pid = pid
  · refine countP_candMatch_zero (fun c hc hx => ?_)
    unfold detectProductAnomalies at hc
    rw [List.mem_append, List.mem_append, List.mem_append, List.mem_append] at hc
    rcases hc with ((((h1 | h2) | h3) | h4) | h5)
    · rcases hty with h | h
      · rw [detectLowStock_of_existing (p := p) (by rw [hp, ← h]; exact hex)] at h1
        simp at h1
      · rcases mem_detectLowStock h1 with ⟨_, hcty⟩
        rw [h] at hx
        rw [hcty] at hx
        simp at hx
    · rcases hty with h | h
      · rcases mem_detectExpiryWarnings h2 with ⟨_, hcty⟩
        rw [h] at hx
        rw [hcty] at hx
        simp at hx
      · rw [detectExpiryWarnings_of_existing (p := p) (by rw [hp, ← h]; exact hex)] at h2
        simp at h2
    · rcases mem_detectPotentialTheft h3 with ⟨_, hcty⟩
      rcases hty with h | h <;> rw [h] at hx <;> rw [hcty] at hx <;> simp at hx
    · rcases mem_detectShrinkagePatterns h4 with ⟨_, hcty⟩
      rcases hty with h | h <;> rw [h] at hx <;> rw [hcty] at hx <;> simp at hx
    · rcases mem_detectUnauthorizedAccess h5 with ⟨_, hcty⟩
      rcases hty with h | h <;> rw [h] at hx <;> rw [hcty] at hx <;> simp at hx
  · exact countP_pipeline_ne p db pid ty hp

theorem countP_systemwide_zero (db : DB) (pid : Nat) (ty : AnomalyType) :
    (detectSystemwideTheftPatterns db).countP (candMatch pid ty) = 0 := by
  refine countP_candMatch_zero (fun c hc hx => ?_)
  rcases mem_detectSystemwideTheftPatterns hc with ⟨hcp, _⟩
  rw [hcp] at hx
  simp at hx

/-- Sum bound used for the batch: a per-product count that is at most one
everywhere and zero away from pid sums to at most one over products with
distinct ids. -/
theorem sum_counts_le_one (pid : Nat) (f : Product → Nat)
    (hle : ∀ p, f p ≤ 1) (hz : ∀ p, p.pid ≠ pid → f p = 0) :
    ∀ l : List Product, (l.map Product.pid).Nodup → (l.map f).sum ≤ 1 := by
  intro l
  induction l with
  | nil => intro _; simp
  | cons p l ih =>
    intro hnd
    rw [List.map_cons, List.nodup_cons] at hnd
    rw [List.map_cons, List.sum_cons]
    by_cases hp : p.pid = pid
    · have hrest : (l.map f).sum = 0 := by
        refine List.sum_eq_zero (fun x hx => ?_)
        rw [List.mem_map] at hx
        rcases hx with ⟨q, hq, hqx⟩
        rw [← hqx]
        refine hz q (fun hqe => hnd.1 ?_)
        rw [hp, ← hqe]
        exact List.mem_map_of_mem Product.pid hq
      rw [hrest]
      have := hle p
      omega
    · rw [hz p hp]
      have := ih hnd.2
      omega

theorem batch_countP_le_one (db : DB) (pid : Nat) (ty : AnomalyType)
    (hty : ty = AnomalyType.low_stock ∨ ty = AnomalyType.expiry_warning)
    (hnodup : (db.products.map Product.pid).Nodup) :
    (detectAnomaliesBatch db).countP (candMatch pid ty) ≤ 1 := by
  unfold detectAnomaliesBatch
  rw [List.countP_append, countP_systemwide_zero]
  rw [List.countP_flatten, List.map_map]
  have := sum_counts_le_one pid
    (fun p => (detectProductAnomalies p db).countP (candMatch pid ty))
    (fun p => countP_pipeline_le_one p db pid ty hty)
    (fun p hp => countP_pipeline_ne p db pid ty hp)
    db.products hnodup
  simpa using this

theorem batch_countP_zero_of_existing (db : DB) (pid : Nat) (ty : AnomalyType)
    (hty : ty = AnomalyType.low_stock ∨ ty = AnomalyType.expiry_warning)
    (hex : existingUnresolved db pid ty) :
    (detectAnomaliesBatch db).countP (candMatch pid ty) = 0 := by
  unfold detectAnomaliesBatch
  rw [List.countP_append, countP_systemwide_zero]
  rw [List.countP_flatten, List.map_map]
  have hall : ∀ x ∈ db.products.map
      (fun p => (detectProductAnomalies p db).countP (candMatch pid ty)), x = 0 := by
    intro x hx
    rw [List.mem_map] at hx
    rcases hx with ⟨q, _, hqx⟩
    rw [← hqx]
    exact countP_pipeline_existing q db pid ty hty hex
  have := List.sum_eq_zero hall
  simpa using this

theorem countUnresolved_persistBatch (db : DB) (B : List Candidate)
    (pid : Nat) (ty : AnomalyType) :
    countUnresolved (persistBatch db B) pid ty =
      countUnresolved db pid ty +
        (if insertManySucceeds B then B.countP (candMatch pid ty) else 0) := by
  unfold persistBatch
  by_cases hok : insertManySucceeds B
  · rw [if_pos hok, if_pos hok]
    unfold countUnresolved
    rw [List.countP_append, List.countP_map]
    have hfun : ∀ c ∈ B,
        (((fun a : StoredAnomaly =>
          decide (a.productId = some pid ∧ a.atype = ty ∧ a.resolved = false)) ∘
            toStored db.now) c = true) ↔ (candMatch pid ty c = true) := by
      intro c _
      unfold toStored candMatch
      simp
    rw [List.countP_congr hfun]
  · rw [if_neg hok, if_neg hok]
    omega

theorem existingUnresolved_of_count_ne_zero {db : DB} {pid : Nat} {ty : AnomalyType}
    (h : countUnresolved db pid ty ≠ 0) : existingUnresolved db pid ty := by
  unfold countUnresolved at h
  rcases List.countP_pos_iff.mp (Nat.pos_of_ne_zero h) with ⟨a, ha, hpa⟩
  rw [decide_eq_true_eq] at hpa
  exact ⟨a, ha, hpa⟩

theorem products_runDetectionPass (db : DB) :
    (runDetectionPass db).products = db.products := by
  unfold runDetectionPass persistBatch
  split
  · rfl
  · rfl

/-- C9: detection is idempotent for low_stock and expiry_warning: two
passes in succession with no intervening changes never push the number of
unresolved anomalies of either type for a product above one (above the
count already present beforehand); the second pass emits no duplicate for
a product whose anomaly from the first pass is still unresolved. -/
theorem c9_detection_idempotent (db : DB) (pid : Nat) (ty : AnomalyType)
    (hty : ty = AnomalyType.low_stock ∨ ty = AnomalyType.expiry_warning)
    (hnodup : (db.products.map Product.pid).Nodup) :
    countUnresolved (runDetectionPass (runDetectionPass db)) pid ty ≤
      max (countUnresolved db pid ty) 1 := by
  have h1 := countUnresolved_persistBatch db (detectAnomaliesBatch db) pid ty
  have h2 := countUnresolved_persistBatch (runDetectionPass db)
    (detectAnomaliesBatch (runDetectionPass db)) pid ty
  have hS1eq : runDetectionPass db = persistBatch db (detectAnomaliesBatch db) := rfl
  have hS2eq : runDetectionPass (runDetectionPass db) =
      persistBatch (runDetectionPass db) (detectAnomaliesBatch (runDetectionPass db)) := rfl
  rw [hS2eq, h2]
  by_cases hS1 : countUnresolved (runDetectionPass db) pid ty = 0
  · have hnodup1 : ((runDetectionPass db).products.map Product.pid).Nodup := by
      rw [products_runDetectionPass]
      exact hnodup
    have hb2 := batch_countP_le_one (runDetectionPass db) pid ty hty hnodup1
    rw [hS1]
    split
    · omega
    · omega
  · have hex1 := existingUnresolved_of_count_ne_zero hS1
    have hb2 := batch_countP_zero_of_existing (runDetectionPass db) pid ty hty hex1
    rw [hb2]
    have hstep : countUnresolved (runDetectionPass db) pid ty ≤
        max (countUnresolved db pid ty) 1 := by
      rw [hS1eq, h1]
      by_cases h0 : countUnresolved db pid ty = 0
      · have hb1 := batch_countP_le_one db pid ty hty hnodup
        rw [h0]
        split
        · omega
        · omega
      · have hex0 := existingUnresolved_of_count_ne_zero h0
        have hb1 := batch_countP_zero_of_existing db pid ty hty hex0
        rw [hb1]
        split
        · omega
        · omega
    split
    · omega
    · omega

/-- Witness for c9_detection_idempotent: an empty-shelf product detected
twice yields exactly one unresolved low_stock anomaly. -/
theorem c9_detection_idempotent_witness :
    ((AnomalyType.low_stock = AnomalyType.low_stock ∨
        AnomalyType.low_stock = AnomalyType.expiry_warning) ∧
      (exEmptyShelfDB.products.map Product.pid).Nodup) ∧
    countUnresolved (runDetectionPass (runDetectionPass exEmptyShelfDB)) 2
        AnomalyType.low_stock ≤
      max (countUnresolved exEmptyShelfDB 2 AnomalyType.low_stock) 1 :=
  ⟨⟨Or.inl rfl, by decide⟩,
    c9_detection_idempotent exEmptyShelfDB 2 AnomalyType.low_stock (Or.inl rfl) (by decide)⟩

end Inv




